import Mathlib

/-!
Verification of the `mssql-python` rust bindings layer
(`src/mssql_python/rust_bindings/src/bulk_copy.rs` and
`src/mssql_python/rust_bindings/src/lib.rs`) against its specification.

The binding is a thin forwarding adapter over opaque Python objects, so we
shallowly embed the Python FFI world: Python values are an arbitrary type `V`,
Python exceptions are a kind plus a message, and every opaque external call
(import, getattr, constructor invocation, method call) is a field of an
environment record.  Each Rust function is translated branch by branch; in
addition to the `PyResult` value, each wrapper operation returns the list of
calls it made into the external connection object, so that claims such as
"the data is forwarded unmodified" and "the external connection is never
invoked" are expressible.
-/

/-- Kinds of Python exceptions distinguished by the binding layer.
`PyImportError`, `PyAttributeError` and `PyRuntimeError` are the ones the
Rust code constructs; `valueError` and `otherError` stand for arbitrary
exception types an external call may raise. -/
inductive PyErrKind where
  | importError
  | attributeError
  | runtimeError
  | valueError
  | otherError
  deriving DecidableEq

/-- The class name used when a `PyErr` is rendered with `Display` (the
Rust `format!` `\x7b\x7d` placeholder). -/
def PyErrKind.name : PyErrKind → String
  | .importError => "ImportError"
  | .attributeError => "AttributeError"
  | .runtimeError => "RuntimeError"
  | .valueError => "ValueError"
  | .otherError => "Exception"

/-- A Python exception: an exception kind plus its message. -/
structure PyErr where
  kind : PyErrKind
  msg : String
  deriving DecidableEq

/-- `Display` rendering of a Python exception, as interpolated by the Rust
code via `format!`: the exception type name, a colon, and the message. -/
def PyErr.display (e : PyErr) : String :=
  e.kind.name ++ ": " ++ e.msg

/-- One call made into an external object: a `bulk_copy` method call with its
two arguments, a `close` method call (no arguments), or an invocation of the
`DdbcConnection` constructor with a parameter mapping. -/
inductive ExtCall (V : Type) where
  | bulkCopy (table : String) (data : V)
  | close
  | construct (params : V)
  deriving DecidableEq

/-- `true` exactly on `bulk_copy` method calls. -/
def ExtCall.isBulkCopy : ExtCall V → Bool
  | .bulkCopy _ _ => true
  | _ => false

/-- Behaviour of the opaque connection object held by the wrapper:
the outcome of `hasattr(conn, "bulk_copy")`, of calling
`conn.bulk_copy(table_name, data)`, and of calling `conn.close()`. -/
structure ConnBehavior (V : Type) where
  hasattrBulkCopy : Except PyErr Bool
  bulkCopyCall : String → V → Except PyErr V
  closeCall : Except PyErr V

/-- Behaviour of the opaque Python environment used by `BulkCopyWrapper::new`:
`py.import_bound`, `getattr` on a module object, and calling a class object
with one positional argument. -/
structure PyEnv (V : Type) where
  importModule : String → Except PyErr V
  getattr : V → String → Except PyErr V
  callClass : V → V → Except PyErr V

/-- The `BulkCopyWrapper` pyclass: it holds exactly one field, the opaque
connection object (`connection: Py<PyAny>`). -/
structure BulkCopyWrapper (V : Type) where
  connection : V

/-- Embedding of `BulkCopyWrapper::new` from `bulk_copy.rs`: it will import
`mssql_core_tds` (mapping failure to a `PyImportError`), get its
`DdbcConnection` attribute (mapping failure to a `PyAttributeError`), call it
with the params dict (mapping failure to a `PyRuntimeError`), and on success
store the resulting connection.  The second component records the calls made
into the external connection world (the constructor invocation). -/
def BulkCopyWrapper.new (env : PyEnv V) (params : V) :
    Except PyErr (BulkCopyWrapper V) × List (ExtCall V) :=
  match env.importModule "mssql_core_tds" with
  | .error e =>
      (.error ⟨.importError, "Failed to import mssql_core_tds: " ++ e.display⟩, [])
  | .ok mssql_module =>
      match env.getattr mssql_module "DdbcConnection" with
      | .error e =>
          (.error ⟨.attributeError, "Failed to get DdbcConnection class: " ++ e.display⟩, [])
      | .ok ddbc_conn_class =>
          match env.callClass ddbc_conn_class params with
          | .error e =>
              (.error ⟨.runtimeError, "Failed to create DdbcConnection: " ++ e.display⟩,
               [.construct params])
          | .ok connection =>
              (.ok ⟨connection⟩, [.construct params])

/-- Embedding of `BulkCopyWrapper::bulk_copy` from `bulk_copy.rs`:
propagate a failing `hasattr` check; if the connection lacks `bulk_copy`,
raise the fixed `PyAttributeError`; otherwise call
`conn.bulk_copy(table_name, data)`, passing a success through unchanged and
wrapping a failure in a `PyRuntimeError` whose message embeds the table name
and the original error.  The second component records the method calls made
into the external connection. -/
def BulkCopyWrapper.bulk_copy (conn : ConnBehavior V) (table_name : String) (data : V) :
    Except PyErr V × List (ExtCall V) :=
  match conn.hasattrBulkCopy with
  | .error e => (.error e, [])
  | .ok false =>
      (.error ⟨.attributeError,
        "bulk_copy method not implemented in mssql_core_tds.DdbcConnection"⟩, [])
  | .ok true =>
      match conn.bulkCopyCall table_name data with
      | .ok result => (.ok result, [.bulkCopy table_name data])
      | .error e =>
          (.error ⟨.runtimeError,
            "Bulk copy failed for table \x27" ++ table_name ++ "\x27: " ++ e.display⟩,
           [.bulkCopy table_name data])

/-- Embedding of `BulkCopyWrapper::close` from `bulk_copy.rs`:
call `conn.close()`, propagating any error unchanged via `?` and discarding
the returned value on success. -/
def BulkCopyWrapper.close (conn : ConnBehavior V) :
    Except PyErr Unit × List (ExtCall V) :=
  match conn.closeCall with
  | .ok _ => (.ok (), [.close])
  | .error e => (.error e, [.close])

/-! ## Embedding of `lib.rs` (sample binding: `RustConnection` and helper functions) -/

/-- The `RustConnection` pyclass from `lib.rs`: a connection string and a
connected flag. -/
structure RustConnection where
  connection_string : String
  is_connected : Bool
  deriving DecidableEq

/-- `RustConnection::new`: stores the connection string, not yet connected. -/
def RustConnection.new (connection_string : String) : RustConnection :=
  ⟨connection_string, false⟩

/-- `RustConnection::connect`: sets the flag and returns
`Ok("Connected to: <connection_string>")`.  Mutation of `&mut self` is
modelled by returning the updated state alongside the `PyResult`. -/
def RustConnection.connect (c : RustConnection) :
    RustConnection × Except PyErr String :=
  ({ c with is_connected := true }, .ok ("Connected to: " ++ c.connection_string))

/-- `RustConnection::disconnect`: clears the flag and returns `Ok(())`. -/
def RustConnection.disconnect (c : RustConnection) :
    RustConnection × Except PyErr Unit :=
  ({ c with is_connected := false }, .ok ())

/-- `RustConnection::is_connected` (getter; named `isConnected` here because
the Lean structure already uses the field name). -/
def RustConnection.isConnected (c : RustConnection) : Bool :=
  c.is_connected

/-- `RustConnection::__repr__`:
`format!` with the pattern `RustConnection(connection_string=<s>, connected=<b>)`
where `<s>` is quoted,
where the `bool` renders as `true`/`false`. -/
def RustConnection.repr (c : RustConnection) : String :=
  "RustConnection(connection_string=\x27" ++ c.connection_string ++
    "\x27, connected=" ++ (if c.is_connected then "true" else "false") ++ ")"

/-- Twos-complement wrap-around of a mathematical integer into the `i64`
range, the release-mode semantics of Rust `i64` addition. -/
def wrapI64 (n : Int) : Int :=
  (n + 2 ^ 63) % 2 ^ 64 - 2 ^ 63

/-- `add_numbers(a, b) -> PyResult<i64>` from `lib.rs`: `Ok(a + b)` with
native `i64` addition (wrapping semantics; the wrapper performs no overflow
check of its own). -/
def add_numbers (a b : Int) : Except PyErr Int :=
  .ok (wrapI64 (a + b))

/-- Rust `str::split_once(c)` on the character list of a string: `some`
of the parts before and after the FIRST occurrence of `c`, or `none` when
`c` does not occur. -/
def splitOnceAux (c : Char) : List Char → Option (List Char × List Char)
  | [] => none
  | x :: xs =>
      if x = c then some ([], xs)
      else (splitOnceAux c xs).map (fun p => (x :: p.1, p.2))

/-- Rust `str::split_once(c)` lifted to `String`. -/
def splitOnce (s : String) (c : Char) : Option (String × String) :=
  (splitOnceAux c s.data).map (fun p => (⟨p.1⟩, ⟨p.2⟩))

/-- A Python dict with string keys and string values, modelled by its lookup
function (`d[k]`). -/
def PyDictModel : Type :=
  String → Option String

/-- `PyDict::new`: the empty dict. -/
def PyDictModel.empty : PyDictModel :=
  fun _ => none

/-- `dict.set_item(k, v)`: afterwards `k` maps to `v` and every other key is
unchanged (Python dict assignment semantics). -/
def PyDictModel.set_item (d : PyDictModel) (k v : String) : PyDictModel :=
  fun q => if q = k then some v else d q

/-- Dict lookup `d[k]`. -/
def PyDictModel.get_item (d : PyDictModel) (k : String) : Option String :=
  d k

/-- `parse_connection_params` from `lib.rs`: split the input on `;`; for each
part, if it contains `=`, split at the first `=` and `set_item` the trimmed
key to the trimmed value. -/
def parse_connection_params (connection_string : String) : PyDictModel :=
  (connection_string.split (· = ';')).foldl
    (fun dict part =>
      match splitOnce part '=' with
      | some kv => dict.set_item kv.1.trim kv.2.trim
      | none => dict)
    PyDictModel.empty

/-- Specification-side reading of `parse_connection_params`: the entries are
the (trimmed-key, trimmed-value) pairs of exactly those `;`-segments that
contain an `=`, split at the first `=`. -/
def specParamEntries (connection_string : String) : List (String × String) :=
  (connection_string.split (· = ';')).filterMap
    (fun part => (splitOnce part '=').map (fun kv => (kv.1.trim, kv.2.trim)))

/-- Specification-side lookup: the value of the LAST entry carrying the given
key, if any (a key occurring in several segments keeps the last value). -/
def specParamLookup (connection_string k : String) : Option String :=
  ((specParamEntries connection_string).reverse.find? (fun p => p.1 = k)).map
    (fun p => p.2)

/-! ## Concrete external behaviours used by the witnesses -/

/-- A connection whose `bulk_copy` method exists and returns `42`
(the spec example scenario). -/
def connReturns42 : ConnBehavior Nat :=
  { hasattrBulkCopy := .ok true
    bulkCopyCall := fun _ _ => .ok 42
    closeCall := .ok 0 }

/-- A connection object with no `bulk_copy` attribute. -/
def connNoBulkCopy : ConnBehavior Nat :=
  { hasattrBulkCopy := .ok false
    bulkCopyCall := fun _ _ => .ok 0
    closeCall := .ok 0 }

/-- A connection whose `bulk_copy` method raises `ValueError: boom`. -/
def connRaises : ConnBehavior Nat :=
  { hasattrBulkCopy := .ok true
    bulkCopyCall := fun _ _ => .error ⟨.valueError, "boom"⟩
    closeCall := .ok 0 }

/-- A connection whose `close` method raises `ValueError: close failed`. -/
def connCloseRaises : ConnBehavior Nat :=
  { hasattrBulkCopy := .ok true
    bulkCopyCall := fun _ _ => .ok 0
    closeCall := .error ⟨.valueError, "close failed"⟩ }

/-- An environment in which import, attribute lookup and construction all
succeed; the constructed connection is `params + 100`. -/
def envAllOk : PyEnv Nat :=
  { importModule := fun _ => .ok 1
    getattr := fun _ _ => .ok 2
    callClass := fun _ params => .ok (params + 100) }

/-! ## Claims about `BulkCopyWrapper` -/

/-- Claim C1: when the held connection exposes `bulk_copy` and the external
call succeeds, the wrapper returns the external result unchanged, and the
only external call made is `bulk_copy` with exactly the table name and data
passed in (the data is forwarded unmodified, for an arbitrary payload type). -/
theorem bulk_copy_success_passthrough {V : Type} (conn : ConnBehavior V)
    (table_name : String) (data result : V)
    (hattr : conn.hasattrBulkCopy = .ok true)
    (hcall : conn.bulkCopyCall table_name data = .ok result) :
    BulkCopyWrapper.bulk_copy conn table_name data =
      (.ok result, [.bulkCopy table_name data]) := by
  unfold BulkCopyWrapper.bulk_copy
  rw [hattr, hcall]

/-- Witness for C1 at the example scenario of the spec: a connection returning `42` on
`bulk_copy("orders", data)` passes `42` through. -/
theorem bulk_copy_success_passthrough_witness :
    BulkCopyWrapper.bulk_copy connReturns42 "orders" 7 =
      (.ok 42, [.bulkCopy "orders" 7]) :=
  bulk_copy_success_passthrough connReturns42 "orders" 7 42 rfl rfl

/-- Claim C2: against a connection lacking the `bulk_copy` attribute, the
wrapper fails with the fixed `AttributeError` message for every table name
and payload, and makes no call into the external connection (empty trace). -/
theorem bulk_copy_missing_capability {V : Type} (conn : ConnBehavior V)
    (table_name : String) (data : V)
    (hattr : conn.hasattrBulkCopy = .ok false) :
    BulkCopyWrapper.bulk_copy conn table_name data =
      (.error ⟨.attributeError,
        "bulk_copy method not implemented in mssql_core_tds.DdbcConnection"⟩, []) := by
  unfold BulkCopyWrapper.bulk_copy
  rw [hattr]

/-- Witness for C2 at the example scenario of the spec `bulk_copy("orders", [])`. -/
theorem bulk_copy_missing_capability_witness :
    BulkCopyWrapper.bulk_copy connNoBulkCopy "orders" 0 =
      (.error ⟨.attributeError,
        "bulk_copy method not implemented in mssql_core_tds.DdbcConnection"⟩, []) :=
  bulk_copy_missing_capability connNoBulkCopy "orders" 0 rfl

/-- Claim C3: when the external `bulk_copy` call fails, the wrapper fails
with a `RuntimeError` whose message contains the literal table name and the
text of the original error, and the message is not the original message verbatim. -/
theorem bulk_copy_failure_enriched {V : Type} (conn : ConnBehavior V)
    (table_name : String) (data : V) (e : PyErr)
    (hattr : conn.hasattrBulkCopy = .ok true)
    (hcall : conn.bulkCopyCall table_name data = .error e) :
    ∃ m : String,
      (BulkCopyWrapper.bulk_copy conn table_name data).1 =
        .error ⟨.runtimeError, m⟩ ∧
      table_name.data <:+: m.data ∧
      e.msg.data <:+: m.data ∧
      m ≠ e.msg := by
  refine ⟨"Bulk copy failed for table \x27" ++ table_name ++ "\x27: " ++ e.display,
    ?_, ?_, ?_, ?_⟩
  · unfold BulkCopyWrapper.bulk_copy
    rw [hattr, hcall]
  · exact ⟨"Bulk copy failed for table \x27".data,
      ("\x27: " ++ e.display).data, by simp [String.data_append]⟩
  · exact ⟨("Bulk copy failed for table \x27" ++ table_name ++ "\x27: " ++
        e.kind.name ++ ": ").data, [],
      by simp [String.data_append, PyErr.display]⟩
  · intro hEq
    have hlen := congrArg String.length hEq
    simp only [PyErr.display, String.length_append] at hlen
    have hpos : 0 < ("Bulk copy failed for table \x27" : String).length := by decide
    omega

/-- Witness for C3: `bulk_copy` on table `orders` against a connection that
raises `ValueError: boom`. -/
theorem bulk_copy_failure_enriched_witness :
    ∃ m : String,
      (BulkCopyWrapper.bulk_copy connRaises "orders" 7).1 =
        .error ⟨.runtimeError, m⟩ ∧
      ("orders" : String).data <:+: m.data ∧
      ("boom" : String).data <:+: m.data ∧
      m ≠ "boom" :=
  bulk_copy_failure_enriched connRaises "orders" 7 ⟨.valueError, "boom"⟩ rfl rfl

/-- Claim C4: construction fails with `ImportError`-kind exactly on failed
module import, else `AttributeError`-kind exactly on constructor-resolution
failure, else `RuntimeError`-kind wrapping the cause exactly on
instantiation failure, else succeeds holding the new connection. -/
theorem new_error_classification {V : Type} (env : PyEnv V) (params : V) :
    (∀ e, env.importModule "mssql_core_tds" = .error e →
      (BulkCopyWrapper.new env params).1 =
        .error ⟨.importError, "Failed to import mssql_core_tds: " ++ e.display⟩) ∧
    (∀ m e, env.importModule "mssql_core_tds" = .ok m →
      env.getattr m "DdbcConnection" = .error e →
      (BulkCopyWrapper.new env params).1 =
        .error ⟨.attributeError, "Failed to get DdbcConnection class: " ++ e.display⟩) ∧
    (∀ m c e, env.importModule "mssql_core_tds" = .ok m →
      env.getattr m "DdbcConnection" = .ok c →
      env.callClass c params = .error e →
      (BulkCopyWrapper.new env params).1 =
        .error ⟨.runtimeError, "Failed to create DdbcConnection: " ++ e.display⟩) ∧
    (∀ m c conn, env.importModule "mssql_core_tds" = .ok m →
      env.getattr m "DdbcConnection" = .ok c →
      env.callClass c params = .ok conn →
      (BulkCopyWrapper.new env params).1 = .ok ⟨conn⟩) := by
  refine ⟨?_, ?_, ?_, ?_⟩
  · intro e h
    unfold BulkCopyWrapper.new
    rw [h]
  · intro m e h1 h2
    unfold BulkCopyWrapper.new
    simp only [h1, h2]
  · intro m c e h1 h2 h3
    unfold BulkCopyWrapper.new
    simp only [h1, h2, h3]
  · intro m c conn h1 h2 h3
    unfold BulkCopyWrapper.new
    simp only [h1, h2, h3]

/-- Witness for C4 (success branch): in an all-succeeding environment,
construction with params `5` yields a wrapper holding the constructed
connection `105`. -/
theorem new_error_classification_witness :
    (BulkCopyWrapper.new envAllOk 5).1 = .ok ⟨105⟩ :=
  (new_error_classification envAllOk 5).2.2.2 1 2 105 rfl rfl rfl

/-- Claim C5: `close` makes exactly one external call, `close()` with no
arguments; a success is returned as `Ok(())` and a failing external `close`
propagates its error completely unchanged. -/
theorem close_forwarding {V : Type} (conn : ConnBehavior V) :
    (∀ r, conn.closeCall = .ok r →
      BulkCopyWrapper.close conn = (.ok (), [.close])) ∧
    (∀ e, conn.closeCall = .error e →
      BulkCopyWrapper.close conn = (.error e, [.close])) := by
  constructor
  · intro r h
    unfold BulkCopyWrapper.close
    rw [h]
  · intro e h
    unfold BulkCopyWrapper.close
    rw [h]

/-- Witness for C5: a `close` raising `ValueError: close failed` surfaces
exactly that error. -/
theorem close_forwarding_witness :
    BulkCopyWrapper.close connCloseRaises =
      (.error ⟨.valueError, "close failed"⟩, [.close]) :=
  (close_forwarding connCloseRaises).2 ⟨.valueError, "close failed"⟩ rfl

/-- Claim C6: construction never attempts a `bulk_copy` call (its external
trace contains no `bulk_copy` entry), and it either yields a wrapper or an
error and nothing else; when it yields a wrapper, the held connection is
exactly the one produced by a successful import / attribute lookup /
constructor invocation (no partial state). -/
theorem new_no_premature_bulk_copy {V : Type} (env : PyEnv V) (params : V) :
    (BulkCopyWrapper.new env params).2.all (fun c => !c.isBulkCopy) = true ∧
    ((∃ w, (BulkCopyWrapper.new env params).1 = .ok w) ∨
      (∃ e, (BulkCopyWrapper.new env params).1 = .error e)) ∧
    (∀ w, (BulkCopyWrapper.new env params).1 = .ok w →
      ∃ m c, env.importModule "mssql_core_tds" = .ok m ∧
        env.getattr m "DdbcConnection" = .ok c ∧
        env.callClass c params = .ok w.connection) := by
  rcases h1 : env.importModule "mssql_core_tds" with e | m
  · have hnew : BulkCopyWrapper.new env params =
        (.error ⟨.importError, "Failed to import mssql_core_tds: " ++ e.display⟩, []) := by
      simp only [BulkCopyWrapper.new, h1]
    rw [hnew]
    exact ⟨rfl, .inr ⟨_, rfl⟩, fun w hw => nomatch hw⟩
  · rcases h2 : env.getattr m "DdbcConnection" with e | c
    · have hnew : BulkCopyWrapper.new env params =
          (.error ⟨.attributeError, "Failed to get DdbcConnection class: " ++ e.display⟩,
            []) := by
        simp only [BulkCopyWrapper.new, h1, h2]
      rw [hnew]
      exact ⟨rfl, .inr ⟨_, rfl⟩, fun w hw => nomatch hw⟩
    · rcases h3 : env.callClass c params with e | conn
      · have hnew : BulkCopyWrapper.new env params =
            (.error ⟨.runtimeError, "Failed to create DdbcConnection: " ++ e.display⟩,
              [.construct params]) := by
          simp only [BulkCopyWrapper.new, h1, h2, h3]
        rw [hnew]
        exact ⟨rfl, .inr ⟨_, rfl⟩, fun w hw => nomatch hw⟩
      · have hnew : BulkCopyWrapper.new env params =
            (.ok ⟨conn⟩, [.construct params]) := by
          simp only [BulkCopyWrapper.new, h1, h2, h3]
        rw [hnew]
        refine ⟨rfl, .inl ⟨_, rfl⟩, ?_⟩
        intro w hw
        cases hw
        exact ⟨m, c, rfl, h2, h3⟩

/-- Witness for C6 (the connection-provenance conjunct) in the
all-succeeding environment with params `5`. -/
theorem new_no_premature_bulk_copy_witness :
    ∃ m c, envAllOk.importModule "mssql_core_tds" = .ok m ∧
      envAllOk.getattr m "DdbcConnection" = .ok c ∧
      envAllOk.callClass c 5 = .ok (105 : Nat) :=
  (new_no_premature_bulk_copy envAllOk 5).2.2 ⟨105⟩ rfl

/-! ## Claims about the sample binding in `lib.rs` -/

/-- Counterexample to claim C7 as stated: `__repr__` is NOT the same string
in every state — the same connection string repr-ed connected and
disconnected gives two different strings. -/
theorem repr_not_fixed_counterexample :
    RustConnection.repr ⟨"db", true⟩ ≠ RustConnection.repr ⟨"db", false⟩ := by
  decide

/-- Claim C7 (amended): `__repr__` returns a string of the fixed format
`RustConnection(connection_string=<s>, connected=<b>)` whose contents
reflect the dynamic state (connection string and connected flag); states
differing in the connected flag produce different strings. -/
theorem repr_reflects_state (c : RustConnection) :
    c.repr = "RustConnection(connection_string=\x27" ++ c.connection_string ++
      "\x27, connected=" ++ (if c.is_connected then "true" else "false") ++ ")" ∧
    RustConnection.repr ⟨c.connection_string, true⟩ ≠
      RustConnection.repr ⟨c.connection_string, false⟩ := by
  constructor
  · rfl
  · intro h
    have hlen := congrArg String.length h
    simp only [RustConnection.repr, if_true, if_false, Bool.false_eq_true,
      String.length_append] at hlen
    have h4 : ("true" : String).length = 4 := by decide
    have h5 : ("false" : String).length = 5 := by decide
    omega

/-- Claim C8: a fresh `RustConnection` is disconnected and stores the given
connection string; `connect` succeeds, sets the flag and returns exactly
`"Connected to: " ++ s`; `disconnect` succeeds and clears the flag; neither
operation changes the connection string. -/
theorem rust_connection_lifecycle (s : String) (c : RustConnection) :
    (RustConnection.new s).isConnected = false ∧
    (RustConnection.new s).connection_string = s ∧
    c.connect.2 = .ok ("Connected to: " ++ c.connection_string) ∧
    c.connect.1.isConnected = true ∧
    c.connect.1.connection_string = c.connection_string ∧
    c.disconnect.2 = .ok () ∧
    c.disconnect.1.isConnected = false ∧
    c.disconnect.1.connection_string = c.connection_string :=
  ⟨rfl, rfl, rfl, rfl, rfl, rfl, rfl, rfl⟩

/-- Claim C9: for `i64` inputs whose mathematical sum is representable in
the signed 64-bit range, `add_numbers` succeeds and returns exactly the sum
(the wrapping semantics coincide with exact addition in range; no overflow
check is performed by the wrapper). -/
theorem add_numbers_exact (a b : Int)
    (ha₁ : -(2 ^ 63) ≤ a) (ha₂ : a < 2 ^ 63)
    (hb₁ : -(2 ^ 63) ≤ b) (hb₂ : b < 2 ^ 63)
    (hs₁ : -(2 ^ 63) ≤ a + b) (hs₂ : a + b < 2 ^ 63) :
    add_numbers a b = .ok (a + b) := by
  unfold add_numbers wrapI64
  congr 1
  omega

/-- Witness for C9: `add_numbers 2 3 = Ok 5`. -/
theorem add_numbers_exact_witness : add_numbers 2 3 = .ok 5 :=
  add_numbers_exact 2 3 (by decide) (by decide) (by decide) (by decide)
    (by decide) (by decide)

/-- Fusing the fold of `parse_connection_params` with the entry extraction:
folding the per-segment `match` over the parts equals folding plain
`set_item` over the extracted (trimmed-key, trimmed-value) entries. -/
theorem foldl_parts_eq_foldl_entries (parts : List String) (d : PyDictModel) :
    parts.foldl
      (fun dict part =>
        match splitOnce part '=' with
        | some kv => dict.set_item kv.1.trim kv.2.trim
        | none => dict) d =
    (parts.filterMap
        (fun part => (splitOnce part '=').map (fun kv => (kv.1.trim, kv.2.trim)))).foldl
      (fun dict p => dict.set_item p.1 p.2) d := by
  induction parts generalizing d with
  | nil => rfl
  | cons part parts ih =>
      rcases h : splitOnce part '=' with _ | kv <;>
        simp [List.filterMap_cons, h, ih]

/-- Looking a key up after folding `set_item` over an entry list: the last
entry with that key wins, and in its absence the initial dict answers. -/
theorem foldl_set_item_get_item (es : List (String × String)) (d : PyDictModel)
    (k : String) :
    (es.foldl (fun dict p => dict.set_item p.1 p.2) d).get_item k =
      ((es.reverse.find? (fun p => p.1 = k)).map (fun p => p.2)).or
        (d.get_item k) := by
  induction es generalizing d with
  | nil => simp
  | cons p es ih =>
      rw [List.foldl_cons, ih, List.reverse_cons, List.find?_append]
      rcases hf : es.reverse.find? (fun q => q.1 = k) with _ | q
      · rw [hf]
        by_cases hk : p.1 = k
        · subst hk
          simp [Option.or, List.find?, PyDictModel.get_item, PyDictModel.set_item]
        · have hk' : ¬k = p.1 := fun h => hk h.symm
          simp [Option.or, List.find?, hk, hk', PyDictModel.get_item,
            PyDictModel.set_item]
      · rw [hf]
        simp [Option.or]

/-- Claim C10: for every input string and every key, the dict built by
`parse_connection_params` maps the key exactly as the specification says:
split on `;`, keep the segments containing `=`, pair the trimmed text
before the first `=` with the trimmed text after it, and let the last
segment with a given key win; segments without `=` contribute nothing. -/
theorem parse_connection_params_correct (s k : String) :
    (parse_connection_params s).get_item k = specParamLookup s k := by
  rw [parse_connection_params, foldl_parts_eq_foldl_entries,
    foldl_set_item_get_item]
  simp [specParamLookup, specParamEntries, PyDictModel.get_item, PyDictModel.empty]

/-- Witness for C7 (amended) at the connection string `db`. -/
theorem repr_reflects_state_witness :
    RustConnection.repr ⟨"db", false⟩ =
      "RustConnection(connection_string=\x27" ++ "db" ++ "\x27, connected=" ++
        (if (false : Bool) then "true" else "false") ++ ")" ∧
    RustConnection.repr ⟨"db", true⟩ ≠ RustConnection.repr ⟨"db", false⟩ :=
  repr_reflects_state ⟨"db", false⟩
